import Mathlib

/-!
The graphicslabs repository: the collision demo and the physics hello-world.

A shallow embedding of `src/collision/main.cpp` and
`src/physics_helloworld/main.cpp`.

* `float` coordinates are idealised as exact rationals; a literal such as
  `-0.20f` denotes the decimal it is written as.
* Calls into SDL, OpenGL, GLEW and Bullet are external: what they return is
  read from an environment record, and the calls the program makes are
  recorded in an event trace.
* `NoDivTriTriIsect` is only declared in `src/collision/main.cpp`.  The
  wrapper `triangle_intersect`, `update` and `main` take the routine as a
  parameter; a model of the routine itself is given separately.
-/

namespace Collision

/-! ## Vectors and matrices (glm) -/

/-- Three float components, as `glm::vec3`. -/
structure vec3 where
  x : ℚ
  y : ℚ
  z : ℚ
deriving DecidableEq

/-- Component access `v[i]` on a `float[3]`. -/
def vec3.get (v : vec3) (i : Nat) : ℚ :=
  match i with
  | 0 => v.x
  | 1 => v.y
  | _ => v.z

/-- Four float components, as `glm::vec4`; one column of a `glm::mat4`. -/
structure vec4 where
  x : ℚ
  y : ℚ
  z : ℚ
  w : ℚ
deriving DecidableEq

/-- Column-major 4x4 matrix, as `glm::mat4`. -/
structure mat4 where
  c0 : vec4
  c1 : vec4
  c2 : vec4
  c3 : vec4
deriving DecidableEq

/-- Componentwise `column * scalar`. -/
def vec4.scale (v : vec4) (s : ℚ) : vec4 :=
  ⟨v.x * s, v.y * s, v.z * s, v.w * s⟩

/-- Componentwise sum of two columns. -/
def vec4.add (a b : vec4) : vec4 :=
  ⟨a.x + b.x, a.y + b.y, a.z + b.z, a.w + b.w⟩

/-- The matrix `glm::mat4(s)`: `s` on the diagonal. -/
def mat4.diag (s : ℚ) : mat4 :=
  ⟨⟨s, 0, 0, 0⟩, ⟨0, s, 0, 0⟩, ⟨0, 0, s, 0⟩, ⟨0, 0, 0, s⟩⟩

/-- The all-zero matrix a `calloc`ed World starts with. -/
def mat4.zero : mat4 := mat4.diag 0

/-- The function `glm::translate(m, v)`: the last column becomes
`m[0]*v[0] + m[1]*v[1] + m[2]*v[2] + m[3]`, the others are kept. -/
def translate (m : mat4) (v : vec3) : mat4 :=
  { m with c3 := ((m.c0.scale v.x).add (m.c1.scale v.y)).add
                   ((m.c2.scale v.z).add m.c3) }

/-- The constant `#define SPEED 0.0f`. -/
def SPEED : ℚ := 0

/-! ## The triangle-triangle routine -/

/-- The macro `FABS`. -/
def FABS (x : ℚ) : ℚ := |x|

/-- The macro `CROSS`. -/
def CROSS (v1 v2 : vec3) : vec3 :=
  ⟨v1.y * v2.z - v1.z * v2.y, v1.z * v2.x - v1.x * v2.z, v1.x * v2.y - v1.y * v2.x⟩

/-- The macro `DOT`. -/
def DOT (v1 v2 : vec3) : ℚ := v1.x * v2.x + v1.y * v2.y + v1.z * v2.z

/-- The macro `SUB`. -/
def SUB (v1 v2 : vec3) : vec3 := ⟨v1.x - v2.x, v1.y - v2.y, v1.z - v2.z⟩

/-- The macro `SORT`: order a pair so that the first is not the larger. -/
def SORT (a b : ℚ) : ℚ × ℚ := if a > b then (b, a) else (a, b)

/-- Normal of the plane of a triangle: cross product of two edge vectors. -/
def planeNormal (P0 P1 P2 : vec3) : vec3 := CROSS (SUB P1 P0) (SUB P2 P0)

/-- Signed distance (not normalised) of `X` to the plane through `P0 P1 P2`:
`N.X + d` with `N` the plane normal and `d = -N.P0`. -/
def signedDist (P0 P1 P2 X : vec3) : ℚ :=
  DOT (planeNormal P0 P1 P2) X + -(DOT (planeNormal P0 P1 P2) P0)

/-- Numeric policy: a signed distance of magnitude below epsilon counts as zero. -/
def clampEps (eps d : ℚ) : ℚ := if FABS d < eps then 0 else d

/-- Early rejection: all three distances are non-zero and share a sign. -/
def sameSide (d0 d1 d2 : ℚ) : Bool := decide (d0 * d1 > 0 ∧ d0 * d2 > 0)

/-- Indices `(i0, i1)` of the two axes kept when projecting along the
dominant component of the normal `N`. -/
def projAxes (N : vec3) : Nat × Nat :=
  if FABS N.x > FABS N.y then
    if FABS N.x > FABS N.z then (1, 2) else (0, 1)
  else
    if FABS N.z > FABS N.y then (0, 1) else (0, 2)

/-- Segment-segment test in the projection plane: the edge starting at `V0`
with direction `(Ax, Ay)` against the edge `U0 U1`. -/
def EDGE_EDGE_TEST (i0 i1 : Nat) (Ax Ay : ℚ) (V0 U0 U1 : vec3) : Bool :=
  let Bx := U0.get i0 - U1.get i0
  let By := U0.get i1 - U1.get i1
  let Cx := V0.get i0 - U0.get i0
  let Cy := V0.get i1 - U0.get i1
  let f := Ay * Bx - Ax * By
  let d := By * Cx - Bx * Cy
  if (f > 0 ∧ d ≥ 0 ∧ d ≤ f) ∨ (f < 0 ∧ d ≤ 0 ∧ d ≥ f) then
    let e := Ax * Cy - Ay * Cx
    if f > 0 then decide (e ≥ 0 ∧ e ≤ f) else decide (e ≤ 0 ∧ e ≥ f)
  else false

/-- One edge `V0 V1` against the three edges of the triangle `U0 U1 U2`. -/
def EDGE_AGAINST_TRI_EDGES (i0 i1 : Nat) (V0 V1 U0 U1 U2 : vec3) : Bool :=
  let Ax := V1.get i0 - V0.get i0
  let Ay := V1.get i1 - V0.get i1
  EDGE_EDGE_TEST i0 i1 Ax Ay V0 U0 U1 ||
  EDGE_EDGE_TEST i0 i1 Ax Ay V0 U1 U2 ||
  EDGE_EDGE_TEST i0 i1 Ax Ay V0 U2 U0

/-- Containment check: is the projected point `V0` strictly inside the
projected triangle `U0 U1 U2`. -/
def POINT_IN_TRI (i0 i1 : Nat) (V0 U0 U1 U2 : vec3) : Bool :=
  let a0 := U1.get i1 - U0.get i1
  let b0 := -(U1.get i0 - U0.get i0)
  let c0 := -a0 * U0.get i0 - b0 * U0.get i1
  let d0 := a0 * V0.get i0 + b0 * V0.get i1 + c0
  let a1 := U2.get i1 - U1.get i1
  let b1 := -(U2.get i0 - U1.get i0)
  let c1 := -a1 * U1.get i0 - b1 * U1.get i1
  let d1 := a1 * V0.get i0 + b1 * V0.get i1 + c1
  let a2 := U0.get i1 - U2.get i1
  let b2 := -(U0.get i0 - U2.get i0)
  let c2 := -a2 * U2.get i0 - b2 * U2.get i1
  let d2 := a2 * V0.get i0 + b2 * V0.get i1 + c2
  decide (d0 * d1 > 0 ∧ d0 * d2 > 0)

/-- The 2-D overlap test in the axes `(i0, i1)`: every edge of the first
triangle against every edge of the second, then the two containment checks. -/
def overlap2D (i0 i1 : Nat) (V0 V1 V2 U0 U1 U2 : vec3) : Bool :=
  EDGE_AGAINST_TRI_EDGES i0 i1 V0 V1 U0 U1 U2 ||
  EDGE_AGAINST_TRI_EDGES i0 i1 V1 V2 U0 U1 U2 ||
  EDGE_AGAINST_TRI_EDGES i0 i1 V2 V0 U0 U1 U2 ||
  POINT_IN_TRI i0 i1 V0 U0 U1 U2 ||
  POINT_IN_TRI i0 i1 U0 V0 V1 V2

/-- Coplanar fallback: project both triangles along the dominant axis of the
normal `N` and run the 2-D overlap test. -/
def coplanar_tri_tri (N V0 V1 V2 U0 U1 U2 : vec3) : Int :=
  if overlap2D (projAxes N).1 (projAxes N).2 V0 V1 V2 U0 U1 U2 then 1 else 0

/-- Interval of one triangle on the intersection line, in division-free form
`(A, B, C, X0, X1)`; `VV` are the projected vertices and `D` the clamped
distances to the other plane.  `none` when all three distances are zero
(the coplanar case). -/
def NEWCOMPUTE_INTERVALS (VV0 VV1 VV2 D0 D1 D2 D0D1 D0D2 : ℚ) :
    Option (ℚ × ℚ × ℚ × ℚ × ℚ) :=
  if D0D1 > 0 then
    some (VV2, (VV0 - VV2) * D2, (VV1 - VV2) * D2, D2 - D0, D2 - D1)
  else if D0D2 > 0 then
    some (VV1, (VV0 - VV1) * D1, (VV2 - VV1) * D1, D1 - D0, D1 - D2)
  else if D1 * D2 > 0 ∨ D0 ≠ 0 then
    some (VV0, (VV1 - VV0) * D0, (VV2 - VV0) * D0, D0 - D1, D0 - D2)
  else if D1 ≠ 0 then
    some (VV1, (VV0 - VV1) * D1, (VV2 - VV1) * D1, D1 - D0, D1 - D2)
  else if D2 ≠ 0 then
    some (VV2, (VV0 - VV2) * D2, (VV1 - VV2) * D2, D2 - D0, D2 - D1)
  else none

/-- Index of the largest component of `|D|`, the first one on ties. -/
def maxIndex (D : vec3) : Nat :=
  let i := if FABS D.y > FABS D.x then 1 else 0
  let m := if FABS D.y > FABS D.x then FABS D.y else FABS D.x
  if FABS D.z > m then 2 else i

/-- Final test: the two sorted intervals overlap, end points included. -/
def intervalsOverlap (s1 s2 : ℚ × ℚ) : Int :=
  if s1.2 < s2.1 ∨ s2.2 < s1.1 then 0 else 1

/-- Modelled from the spec: the body of `NoDivTriTriIsect`, which
`src/collision/main.cpp` declares and calls but does not define.  The case
split is that of §4.1: planes and signed distances with the epsilon of the
numeric policy (steps 1-3, early rejection), direction of the intersection
line (step 4), the 2-D fallback when a triangle has all three distances zero
(step 5), and the inclusive interval-overlap test on the line (steps 6-7).
What the design-level text leaves open (the value of epsilon, tie-breaking,
the division-free interval form, which normal picks the projection) is taken
as a parameter or follows the published Moller routine the source names. -/
def NoDivTriTriIsect (eps : ℚ) (V0 V1 V2 U0 U1 U2 : vec3) : Int :=
  let N1 := planeNormal V0 V1 V2
  let du0 := clampEps eps (signedDist V0 V1 V2 U0)
  let du1 := clampEps eps (signedDist V0 V1 V2 U1)
  let du2 := clampEps eps (signedDist V0 V1 V2 U2)
  if sameSide du0 du1 du2 then 0 else
  let N2 := planeNormal U0 U1 U2
  let dv0 := clampEps eps (signedDist U0 U1 U2 V0)
  let dv1 := clampEps eps (signedDist U0 U1 U2 V1)
  let dv2 := clampEps eps (signedDist U0 U1 U2 V2)
  if sameSide dv0 dv1 dv2 then 0 else
  let index := maxIndex (CROSS N1 N2)
  match NEWCOMPUTE_INTERVALS (V0.get index) (V1.get index) (V2.get index)
      dv0 dv1 dv2 (dv0 * dv1) (dv0 * dv2) with
  | none => coplanar_tri_tri N1 V0 V1 V2 U0 U1 U2
  | some (a, b, c, x0, x1) =>
    match NEWCOMPUTE_INTERVALS (U0.get index) (U1.get index) (U2.get index)
        du0 du1 du2 (du0 * du1) (du0 * du2) with
    | none => coplanar_tri_tri N1 V0 V1 V2 U0 U1 U2
    | some (d, e, f, y0, y1) =>
      let xx := x0 * x1
      let yy := y0 * y1
      let xxyy := xx * yy
      intervalsOverlap
        (SORT (a * xxyy + b * x1 * yy) (a * xxyy + c * x0 * yy))
        (SORT (d * xxyy + e * xx * y1) (d * xxyy + f * xx * y0))

/-- Modelled from the spec: the "small epsilon" of the numeric policy, with
the value the published routine uses. -/
def EPSILON : ℚ := 1 / 1000000

/-- The wrapper `triangle_intersect`: true exactly when the routine, called
with the first triangle as `V0 V1 V2` and the second as `U0 U1 U2`, returns 1. -/
def triangle_intersect (NoDivTriTriIsect : vec3 → vec3 → vec3 → vec3 → vec3 → vec3 → Int)
    (a1 b1 c1 a2 b2 c2 : vec3) : Bool :=
  if NoDivTriTriIsect a1 b1 c1 a2 b2 c2 = 1 then true else false


/-! ## The application context and one frame -/

/-- The struct `World`: handles are numbers, `std::vector` is a list. -/
structure World where
  window : Nat
  renderer : Nat
  glContext : Nat
  projectionMat : mat4
  viewMat : mat4
  shaderProgram : Nat
  vertexShader : Nat
  fragmentShader : Nat
  modelMatUniform : Int
  objectPositions : List vec3
  objectVao : Nat
  objectPositionVbo : Nat
  objectModelMat : mat4
  wallPositions : List vec3
  wallVao : Nat
  wallPositionVbo : Nat

/-- What `calloc(1, sizeof(World))` yields: every field zero, vectors empty. -/
def World.calloc : World :=
  { window := 0, renderer := 0, glContext := 0,
    projectionMat := mat4.zero, viewMat := mat4.zero,
    shaderProgram := 0, vertexShader := 0, fragmentShader := 0, modelMatUniform := 0,
    objectPositions := [], objectVao := 0, objectPositionVbo := 0,
    objectModelMat := mat4.zero,
    wallPositions := [], wallVao := 0, wallPositionVbo := 0 }

/-- C++ exceptions the program can raise. -/
inductive Exn where
  | out_of_range
deriving DecidableEq

/-- Calls a frame makes that are visible outside the World struct. -/
inductive Event where
  | triangle_intersect (a1 b1 c1 a2 b2 c2 : vec3)
  | SDL_SetWindowTitle (title : String)
  | glClear
  | glUseProgram (program : Nat)
  | glUniformMatrix4fv (location : Int) (value : mat4)
  | glBindVertexArray (vao : Nat)
  | glDrawArrays (first count : Nat)
  | SDL_GL_SwapWindow
deriving DecidableEq

/-- Bounds-checked `std::vector::at`. -/
def vector_at (xs : List vec3) (i : Nat) : Except Exn vec3 :=
  match xs[i]? with
  | some v => Except.ok v
  | none => Except.error Exn.out_of_range

/-- The function `update`: advance the model matrix, read the six vertices
with `.at`, call `triangle_intersect` on them as stored, set the title. -/
def update (isect : vec3 → vec3 → vec3 → vec3 → vec3 → vec3 → Int) (world : World) :
    Except Exn (World × List Event) :=
  let world1 := { world with
    objectModelMat := translate world.objectModelMat ⟨SPEED, 0, 0⟩ }
  match vector_at world1.objectPositions 0 with
  | Except.error e => Except.error e
  | Except.ok a1 =>
  match vector_at world1.objectPositions 1 with
  | Except.error e => Except.error e
  | Except.ok b1 =>
  match vector_at world1.objectPositions 2 with
  | Except.error e => Except.error e
  | Except.ok c1 =>
  match vector_at world1.wallPositions 0 with
  | Except.error e => Except.error e
  | Except.ok a2 =>
  match vector_at world1.wallPositions 1 with
  | Except.error e => Except.error e
  | Except.ok b2 =>
  match vector_at world1.wallPositions 2 with
  | Except.error e => Except.error e
  | Except.ok c2 =>
    if triangle_intersect isect a1 b1 c1 a2 b2 c2 = true then
      Except.ok (world1, [Event.triangle_intersect a1 b1 c1 a2 b2 c2,
                          Event.SDL_SetWindowTitle "Colliding!"])
    else
      Except.ok (world1, [Event.triangle_intersect a1 b1 c1 a2 b2 c2,
                          Event.SDL_SetWindowTitle "Not Colliding"])

/-- The function `display`: only reads the World and issues draw calls. -/
def display (world : World) : World × List Event :=
  (world,
   [Event.glClear,
    Event.glUseProgram world.shaderProgram,
    Event.glUniformMatrix4fv world.modelMatUniform world.objectModelMat,
    Event.glBindVertexArray world.objectVao,
    Event.glDrawArrays 0 world.objectPositions.length,
    Event.glUniformMatrix4fv world.modelMatUniform (mat4.diag 1),
    Event.glBindVertexArray world.wallVao,
    Event.glDrawArrays 0 world.wallPositions.length])

/-! ## main: initialisation and the game loop -/

/-- What the external libraries answer during initialisation, in call order.
Handles and object names are 0 (`NULL`) on failure. -/
structure Env where
  SDL_Init : Int
  window : Nat
  renderer : Nat
  glContext : Nat
  glewInit : Int
  objectVao : Nat
  objectPositionVbo : Nat
  wallVao : Nat
  wallPositionVbo : Nat
  vertexShader : Nat
  vertexCompiled : Int
  fragmentShader : Nat
  fragmentCompiled : Int
  shaderProgram : Nat
  linked : Int
  modelMatUniform : Int

/-- The constant `GLEW_OK`. -/
def GLEW_OK : Int := 0

/-- The constant `GL_FALSE`. -/
def GL_FALSE : Int := 0

/-- The constant `EXIT_FAILURE`. -/
def EXIT_FAILURE : Int := 1

/-- The line `#define INITIAL_COLLIDING 1`: the symbol is defined. -/
def INITIAL_COLLIDING : Bool := true

/-- The array `objectPositions` in `main`, with its `#ifdef`. -/
def objectPositionsInit : List vec3 :=
  if INITIAL_COLLIDING then
    [⟨-1/2, 3/4, 0⟩, ⟨-1/5, 1/4, 0⟩, ⟨-4/5, 1/4, 0⟩]
  else
    [⟨-3/4, 1, 0⟩, ⟨-1/2, 1/2, 0⟩, ⟨-1, 1/2, 0⟩]

/-- The array `wallPositions` in `main`. -/
def wallPositionsInit : List vec3 :=
  [⟨0, 9/10, 0⟩, ⟨9/10, -9/10, 0⟩, ⟨-9/10, -9/10, 0⟩]

/-- How initialisation ends: `error` printed to stdout and left the process
with a status, or the game loop is entered with the World built so far. -/
inductive InitResult where
  | exited (stdout : String) (status : Int)
  | entersLoop (world : World)

/-- The function `error`: print the message after "Error: " and leave with
`EXIT_FAILURE`. -/
def error (message : String) : InitResult :=
  InitResult.exited ("Error: " ++ message ++ "\n") EXIT_FAILURE

/-- The part of `main` before the game loop, check by check in source order.
Each handle is stored in the World and then tested there; the World is
written out once, as it stands when the loop is reached.  The value
`glewInit` returns is not looked at, and `compiled` is tested right after
each `glGetShaderiv`. -/
def main_init (env : Env) : InitResult :=
  if env.SDL_Init ≠ 0 then error "Failed to initialize SDL" else
  if env.window = 0 ∨ env.renderer = 0 then
    error "Failed to create window and renderer" else
  if env.glContext = 0 then error "Failed to create OpenGL context" else
  if env.objectVao = 0 then error "Failed to create VAO" else
  if env.objectPositionVbo = 0 then error "Failed to create VBO" else
  if env.wallVao = 0 then error "Failed to create VAO" else
  if env.wallPositionVbo = 0 then error "Failed to create VBO" else
  if env.vertexCompiled = GL_FALSE then error "Failed to compile vertex shader" else
  if env.fragmentCompiled = GL_FALSE then error "Failed to compile fragment shader" else
  if env.shaderProgram = 0 then error "Failed to create shader program" else
  if env.linked = GL_FALSE then error "Failed to link shader program" else
  if env.modelMatUniform = -1 then error "Failed to obtain uniform" else
  InitResult.entersLoop
    { World.calloc with
      window := env.window
      renderer := env.renderer
      glContext := env.glContext
      objectVao := env.objectVao
      objectPositionVbo := env.objectPositionVbo
      objectPositions := objectPositionsInit
      wallVao := env.wallVao
      wallPositionVbo := env.wallPositionVbo
      wallPositions := wallPositionsInit
      vertexShader := env.vertexShader
      fragmentShader := env.fragmentShader
      shaderProgram := env.shaderProgram
      modelMatUniform := env.modelMatUniform
      objectModelMat := mat4.diag 1 }

/-- Kinds of SDL events the loop distinguishes. -/
inductive SDL_EventType where
  | SDL_QUIT
  | other
deriving DecidableEq

/-- The game loop over the event batches the frames find pending: each frame
drains its batch, then runs `update`, `display` and the buffer swap; the loop
is left after a frame whose batch held `SDL_QUIT`.  The result carries the
World, the trace, and whether the loop was left (`false`: still running when
the given batches end). -/
def mainLoop (isect : vec3 → vec3 → vec3 → vec3 → vec3 → vec3 → Int) :
    List (List SDL_EventType) → World → Except Exn (World × List Event × Bool)
  | [], world => Except.ok (world, [], false)
  | batch :: later, world =>
    let quit := batch.any (fun e => decide (e = SDL_EventType.SDL_QUIT))
    match update isect world with
    | Except.error e => Except.error e
    | Except.ok (world1, ev1) =>
      let frame := ev1 ++ (display world1).2 ++ [Event.SDL_GL_SwapWindow]
      if quit then Except.ok ((display world1).1, frame, true) else
      match mainLoop isect later (display world1).1 with
      | Except.error e => Except.error e
      | Except.ok (world2, ev2, left) => Except.ok (world2, frame ++ ev2, left)

/-- Number of frames the loop runs on the given batches. -/
def framesRun : List (List SDL_EventType) → Nat
  | [] => 0
  | batch :: later =>
    if batch.any (fun e => decide (e = SDL_EventType.SDL_QUIT)) then 1
    else framesRun later + 1

/-- The `triangle_intersect` calls of a trace, in order. -/
def intersectCalls (trace : List Event) : List Event :=
  trace.filter (fun e =>
    match e with
    | Event.triangle_intersect _ _ _ _ _ _ => true
    | _ => false)

/-- The titles a trace sets, in order. -/
def titlesSet (trace : List Event) : List String :=
  trace.filterMap (fun e =>
    match e with
    | Event.SDL_SetWindowTitle t => some t
    | _ => none)

/-! ## Geometric side conditions used in the statements -/

/-- The vertices `X0 X1 X2` lie strictly on one side of the plane through
`P0 P1 P2`: their signed distances are non-zero and share a sign. -/
def onOneSide (P0 P1 P2 X0 X1 X2 : vec3) : Prop :=
  (0 < signedDist P0 P1 P2 X0 ∧ 0 < signedDist P0 P1 P2 X1 ∧ 0 < signedDist P0 P1 P2 X2) ∨
  (signedDist P0 P1 P2 X0 < 0 ∧ signedDist P0 P1 P2 X1 < 0 ∧ signedDist P0 P1 P2 X2 < 0)

/-- The signed distances of `X0 X1 X2` to the plane through `P0 P1 P2` all
have magnitude at least `eps`. -/
def clearOfPlane (eps : ℚ) (P0 P1 P2 X0 X1 X2 : vec3) : Prop :=
  eps ≤ |signedDist P0 P1 P2 X0| ∧ eps ≤ |signedDist P0 P1 P2 X1| ∧
  eps ≤ |signedDist P0 P1 P2 X2|

/-- The three distances of `X0 X1 X2` to the plane through `P0 P1 P2` all
count as zero under the epsilon policy: the routine takes its 2-D fallback. -/
def allOnPlane (eps : ℚ) (P0 P1 P2 X0 X1 X2 : vec3) : Prop :=
  clampEps eps (signedDist P0 P1 P2 X0) = 0 ∧ clampEps eps (signedDist P0 P1 P2 X1) = 0 ∧
  clampEps eps (signedDist P0 P1 P2 X2) = 0

/-- A World with the built program's vertices and an arbitrary model matrix. -/
def sampleWorld : World :=
  { World.calloc with
    objectPositions := objectPositionsInit
    wallPositions := wallPositionsInit
    objectModelMat := mat4.diag 1 }

/-- The call `update` makes in the built program: the stored object vertices
first, the stored wall vertices second. -/
def builtCall : Event :=
  Event.triangle_intersect ⟨-1/2, 3/4, 0⟩ ⟨-1/5, 1/4, 0⟩ ⟨-4/5, 1/4, 0⟩
    ⟨0, 9/10, 0⟩ ⟨9/10, -9/10, 0⟩ ⟨-9/10, -9/10, 0⟩

/-- An environment in which every initialisation call succeeds. -/
def envAllOk : Env :=
  { SDL_Init := 0, window := 1, renderer := 2, glContext := 3, glewInit := 0,
    objectVao := 1, objectPositionVbo := 1, wallVao := 2, wallPositionVbo := 2,
    vertexShader := 1, vertexCompiled := 1, fragmentShader := 2, fragmentCompiled := 1,
    shaderProgram := 3, linked := 1, modelMatUniform := 0 }

/-- The environment `envAllOk`, except that `glewInit` reports an error
(1 is `GLEW_ERROR_NO_GL_VERSION`). -/
def envGlewFails : Env := { envAllOk with glewInit := 1 }

/-- The World `main` has built when it reaches the loop under `envAllOk`. -/
def worldAllOk : World :=
  { window := 1, renderer := 2, glContext := 3,
    projectionMat := mat4.zero, viewMat := mat4.zero,
    shaderProgram := 3, vertexShader := 1, fragmentShader := 2, modelMatUniform := 0,
    objectPositions := objectPositionsInit, objectVao := 1, objectPositionVbo := 1,
    objectModelMat := mat4.diag 1,
    wallPositions := wallPositionsInit, wallVao := 2, wallPositionVbo := 2 }

/-- Some check of `main` before the loop finds a failure. -/
def checkedFailure (env : Env) : Prop :=
  env.SDL_Init ≠ 0 ∨ env.window = 0 ∨ env.renderer = 0 ∨ env.glContext = 0 ∨
  env.objectVao = 0 ∨ env.objectPositionVbo = 0 ∨ env.wallVao = 0 ∨ env.wallPositionVbo = 0 ∨
  env.vertexCompiled = GL_FALSE ∨ env.fragmentCompiled = GL_FALSE ∨ env.shaderProgram = 0 ∨
  env.linked = GL_FALSE ∨ env.modelMatUniform = -1

end Collision

namespace Physics

/-- Calls of the simulation loop that are visible from outside. -/
inductive Event where
  | stepSimulation (timeStep : ℚ) (maxSubSteps : Nat)
  | printLine (text : String)
deriving DecidableEq

/-- The Bullet side of the program, for a dynamics-world state `W`: the
world as set up before the loop, what one `stepSimulation` call does to it,
and the text `operator<<` prints for the Y coordinate of the falling body's
world transform. -/
structure Bullet (W : Type) where
  setup : W
  stepSimulation : W → ℚ → Nat → W
  sphereY : W → String

/-- The loop `for(int i = 0; i < 300; i++)` of `main`, from counter `i`. -/
def simulationLoop {W : Type} (B : Bullet W) (i : Nat) (world : W) (trace : List Event) :
    W × List Event :=
  if i < 300 then
    let world1 := B.stepSimulation world (1 / 60) 10
    simulationLoop B (i + 1) world1
      (trace ++ [Event.stepSimulation (1 / 60) 10,
                 Event.printLine ("sphere height: " ++ B.sphereY world1)])
  else (world, trace)
termination_by 300 - i

/-- The function `main` of the physics program: set up, then run the loop. -/
def main {W : Type} (B : Bullet W) : W × List Event :=
  simulationLoop B 0 B.setup []

/-- The world after `n` calls of `stepSimulation(1/60, 10)`. -/
def afterSteps {W : Type} (B : Bullet W) : Nat → W
  | 0 => B.setup
  | n + 1 => B.stepSimulation (afterSteps B n) (1 / 60) 10

/-- The lines a trace prints, in order. -/
def printed (trace : List Event) : List String :=
  trace.filterMap (fun e =>
    match e with
    | Event.printLine t => some t
    | _ => none)

/-- Number of `stepSimulation` calls in a trace. -/
def stepCalls (trace : List Event) : Nat :=
  trace.countP (fun e =>
    match e with
    | Event.stepSimulation _ _ => true
    | _ => false)

/-- The trace of the first `n` loop iterations: a step, then the line with
the height after that step. -/
def loggedSteps {W : Type} (B : Bullet W) : Nat → List Event
  | 0 => []
  | n + 1 =>
    loggedSteps B n ++
      [Event.stepSimulation (1 / 60) 10,
       Event.printLine ("sphere height: " ++ B.sphereY (afterSteps B (n + 1)))]

end Physics

/-! ## Theorems about the collision program -/

namespace Collision

theorem clampEps_zero (eps : ℚ) : clampEps eps 0 = 0 := by
  simp [clampEps]

/-- C1: for the repository's two coplanar triangles, passed as
`(a1,b1,c1) = T1` and `(a2,b2,c2) = T2`, `triangle_intersect` over the
modelled routine returns true, whatever the epsilon. -/
theorem triangle_intersect_initial_colliding (eps : ℚ) :
    triangle_intersect (NoDivTriTriIsect eps)
      ⟨-1/2, 3/4, 0⟩ ⟨-1/5, 1/4, 0⟩ ⟨-4/5, 1/4, 0⟩
      ⟨0, 9/10, 0⟩ ⟨9/10, -9/10, 0⟩ ⟨-9/10, -9/10, 0⟩ = true := by
  simp only [triangle_intersect, NoDivTriTriIsect, signedDist, planeNormal, CROSS, SUB, DOT]
  norm_num [clampEps, sameSide, maxIndex, FABS, NEWCOMPUTE_INTERVALS, coplanar_tri_tri,
    projAxes, overlap2D, EDGE_AGAINST_TRI_EDGES, EDGE_EDGE_TEST, POINT_IN_TRI, vec3.get]

/-- C9: `triangle_intersect` is true exactly when the routine, given the same
six vertices in the same order, returns 1; any other return value, non-zero
ones included, gives false. -/
theorem triangle_intersect_iff_returns_one
    (isect : vec3 → vec3 → vec3 → vec3 → vec3 → vec3 → Int) (a1 b1 c1 a2 b2 c2 : vec3) :
    (triangle_intersect isect a1 b1 c1 a2 b2 c2 = true ↔ isect a1 b1 c1 a2 b2 c2 = 1) ∧
    (triangle_intersect isect a1 b1 c1 a2 b2 c2 = false ↔ isect a1 b1 c1 a2 b2 c2 ≠ 1) := by
  unfold triangle_intersect
  by_cases h : isect a1 b1 c1 a2 b2 c2 = 1 <;> simp [h]

theorem vector_at_of_getElem? {xs : List vec3} {i : Nat} {v : vec3} (h : xs[i]? = some v) :
    vector_at xs i = Except.ok v := by
  simp [vector_at, h]

/-- What `update` does on a World whose two vectors start with the given
vertices. -/
theorem update_of_vertices (isect : vec3 → vec3 → vec3 → vec3 → vec3 → vec3 → Int)
    (world : World) {a1 b1 c1 a2 b2 c2 : vec3}
    (h0 : world.objectPositions[0]? = some a1) (h1 : world.objectPositions[1]? = some b1)
    (h2 : world.objectPositions[2]? = some c1)
    (k0 : world.wallPositions[0]? = some a2) (k1 : world.wallPositions[1]? = some b2)
    (k2 : world.wallPositions[2]? = some c2) :
    update isect world = Except.ok
      ({ world with objectModelMat := translate world.objectModelMat ⟨SPEED, 0, 0⟩ },
       [Event.triangle_intersect a1 b1 c1 a2 b2 c2,
        Event.SDL_SetWindowTitle
          (if triangle_intersect isect a1 b1 c1 a2 b2 c2 = true then "Colliding!"
           else "Not Colliding")]) := by
  unfold update
  simp only [vector_at_of_getElem? h0, vector_at_of_getElem? h1, vector_at_of_getElem? h2,
    vector_at_of_getElem? k0, vector_at_of_getElem? k1, vector_at_of_getElem? k2]
  by_cases h : triangle_intersect isect a1 b1 c1 a2 b2 c2 = true <;> simp [h]

theorem getElem?_of_three_le {xs : List vec3} (h : 3 ≤ xs.length) :
    ∃ a b c, xs[0]? = some a ∧ xs[1]? = some b ∧ xs[2]? = some c := by
  match xs, h with
  | a :: b :: c :: _, _ => exact ⟨a, b, c, by simp, by simp, by simp⟩

/-- C4: on a World whose two vectors hold at least three vertices, one call
of `update` succeeds, calls `triangle_intersect` on the first three object
vertices and the first three wall vertices, and sets the window title exactly
once: to "Colliding!" when that call is true and to "Not Colliding" otherwise. -/
theorem update_sets_title_once (isect : vec3 → vec3 → vec3 → vec3 → vec3 → vec3 → Int)
    (world : World) (hobj : 3 ≤ world.objectPositions.length)
    (hwall : 3 ≤ world.wallPositions.length) :
    ∃ a1 b1 c1 a2 b2 c2 world1 trace,
      world.objectPositions[0]? = some a1 ∧ world.objectPositions[1]? = some b1 ∧
      world.objectPositions[2]? = some c1 ∧
      world.wallPositions[0]? = some a2 ∧ world.wallPositions[1]? = some b2 ∧
      world.wallPositions[2]? = some c2 ∧
      update isect world = Except.ok (world1, trace) ∧
      intersectCalls trace = [Event.triangle_intersect a1 b1 c1 a2 b2 c2] ∧
      titlesSet trace =
        [if triangle_intersect isect a1 b1 c1 a2 b2 c2 = true then "Colliding!"
         else "Not Colliding"] := by
  obtain ⟨a1, b1, c1, h0, h1, h2⟩ := getElem?_of_three_le hobj
  obtain ⟨a2, b2, c2, k0, k1, k2⟩ := getElem?_of_three_le hwall
  refine ⟨a1, b1, c1, a2, b2, c2, _, _, h0, h1, h2, k0, k1, k2,
    update_of_vertices isect world h0 h1 h2 k0 k1 k2, ?_, ?_⟩
  · simp [intersectCalls]
  · simp [titlesSet]

theorem update_sets_title_once_witness :
    3 ≤ sampleWorld.objectPositions.length ∧ 3 ≤ sampleWorld.wallPositions.length ∧
    ∃ a1 b1 c1 a2 b2 c2 world1 trace,
      sampleWorld.objectPositions[0]? = some a1 ∧ sampleWorld.objectPositions[1]? = some b1 ∧
      sampleWorld.objectPositions[2]? = some c1 ∧
      sampleWorld.wallPositions[0]? = some a2 ∧ sampleWorld.wallPositions[1]? = some b2 ∧
      sampleWorld.wallPositions[2]? = some c2 ∧
      update (NoDivTriTriIsect EPSILON) sampleWorld = Except.ok (world1, trace) ∧
      intersectCalls trace = [Event.triangle_intersect a1 b1 c1 a2 b2 c2] ∧
      titlesSet trace =
        [if triangle_intersect (NoDivTriTriIsect EPSILON) a1 b1 c1 a2 b2 c2 = true
         then "Colliding!" else "Not Colliding"] :=
  ⟨by simp [sampleWorld, objectPositionsInit, INITIAL_COLLIDING],
   by simp [sampleWorld, wallPositionsInit],
   update_sets_title_once (NoDivTriTriIsect EPSILON) sampleWorld
     (by simp [sampleWorld, objectPositionsInit, INITIAL_COLLIDING])
     (by simp [sampleWorld, wallPositionsInit])⟩

theorem clampEps_of_le {eps d : ℚ} (h : eps ≤ |d|) : clampEps eps d = d := by
  simp [clampEps, FABS, not_lt.mpr h]

theorem sameSide_of_pos {d0 d1 d2 : ℚ} (h0 : 0 < d0) (h1 : 0 < d1) (h2 : 0 < d2) :
    sameSide d0 d1 d2 = true := by
  simp [sameSide, mul_pos h0 h1, mul_pos h0 h2]

theorem sameSide_of_neg {d0 d1 d2 : ℚ} (h0 : d0 < 0) (h1 : d1 < 0) (h2 : d2 < 0) :
    sameSide d0 d1 d2 = true := by
  simp [sameSide, mul_pos_of_neg_of_neg h0 h1, mul_pos_of_neg_of_neg h0 h2]

theorem NoDivTriTriIsect_reject_first (eps : ℚ) (V0 V1 V2 U0 U1 U2 : vec3)
    (h : sameSide (clampEps eps (signedDist V0 V1 V2 U0)) (clampEps eps (signedDist V0 V1 V2 U1))
      (clampEps eps (signedDist V0 V1 V2 U2)) = true) :
    NoDivTriTriIsect eps V0 V1 V2 U0 U1 U2 = 0 := by
  unfold NoDivTriTriIsect
  simp only [h, if_true]

theorem NoDivTriTriIsect_reject_second (eps : ℚ) (V0 V1 V2 U0 U1 U2 : vec3)
    (h : sameSide (clampEps eps (signedDist U0 U1 U2 V0)) (clampEps eps (signedDist U0 U1 U2 V1))
      (clampEps eps (signedDist U0 U1 U2 V2)) = true) :
    NoDivTriTriIsect eps V0 V1 V2 U0 U1 U2 = 0 := by
  unfold NoDivTriTriIsect
  simp only [h, if_true]
  split <;> rfl

theorem sameSide_of_onOneSide {eps : ℚ} {P0 P1 P2 X0 X1 X2 : vec3}
    (hside : onOneSide P0 P1 P2 X0 X1 X2) (hclear : clearOfPlane eps P0 P1 P2 X0 X1 X2) :
    sameSide (clampEps eps (signedDist P0 P1 P2 X0)) (clampEps eps (signedDist P0 P1 P2 X1))
      (clampEps eps (signedDist P0 P1 P2 X2)) = true := by
  obtain ⟨c0, c1, c2⟩ := hclear
  rw [clampEps_of_le c0, clampEps_of_le c1, clampEps_of_le c2]
  rcases hside with ⟨h0, h1, h2⟩ | ⟨h0, h1, h2⟩
  · exact sameSide_of_pos h0 h1 h2
  · exact sameSide_of_neg h0 h1 h2

/-- C2, as the routine has it: when the three vertices of one triangle lie
strictly on one side of the other triangle's plane and their signed distances
all have magnitude at least epsilon, `triangle_intersect` returns false. -/
theorem triangle_intersect_separated (eps : ℚ) (a1 b1 c1 a2 b2 c2 : vec3)
    (h : (onOneSide a2 b2 c2 a1 b1 c1 ∧ clearOfPlane eps a2 b2 c2 a1 b1 c1) ∨
         (onOneSide a1 b1 c1 a2 b2 c2 ∧ clearOfPlane eps a1 b1 c1 a2 b2 c2)) :
    triangle_intersect (NoDivTriTriIsect eps) a1 b1 c1 a2 b2 c2 = false := by
  have h0 : NoDivTriTriIsect eps a1 b1 c1 a2 b2 c2 = 0 := by
    rcases h with ⟨hs, hc⟩ | ⟨hs, hc⟩
    · exact NoDivTriTriIsect_reject_second eps _ _ _ _ _ _ (sameSide_of_onOneSide hs hc)
    · exact NoDivTriTriIsect_reject_first eps _ _ _ _ _ _ (sameSide_of_onOneSide hs hc)
  simp [triangle_intersect, h0]

theorem triangle_intersect_separated_witness :
    ((onOneSide ⟨0, 0, 1⟩ ⟨1, 0, 1⟩ ⟨0, 1, 1⟩ ⟨0, 0, 0⟩ ⟨1, 0, 0⟩ ⟨0, 1, 0⟩ ∧
        clearOfPlane EPSILON ⟨0, 0, 1⟩ ⟨1, 0, 1⟩ ⟨0, 1, 1⟩ ⟨0, 0, 0⟩ ⟨1, 0, 0⟩ ⟨0, 1, 0⟩) ∨
      (onOneSide ⟨0, 0, 0⟩ ⟨1, 0, 0⟩ ⟨0, 1, 0⟩ ⟨0, 0, 1⟩ ⟨1, 0, 1⟩ ⟨0, 1, 1⟩ ∧
        clearOfPlane EPSILON ⟨0, 0, 0⟩ ⟨1, 0, 0⟩ ⟨0, 1, 0⟩ ⟨0, 0, 1⟩ ⟨1, 0, 1⟩ ⟨0, 1, 1⟩)) ∧
    triangle_intersect (NoDivTriTriIsect EPSILON)
      ⟨0, 0, 0⟩ ⟨1, 0, 0⟩ ⟨0, 1, 0⟩ ⟨0, 0, 1⟩ ⟨1, 0, 1⟩ ⟨0, 1, 1⟩ = false :=
  have h : (onOneSide ⟨0, 0, 1⟩ ⟨1, 0, 1⟩ ⟨0, 1, 1⟩ ⟨0, 0, 0⟩ ⟨1, 0, 0⟩ ⟨0, 1, 0⟩ ∧
        clearOfPlane EPSILON ⟨0, 0, 1⟩ ⟨1, 0, 1⟩ ⟨0, 1, 1⟩ ⟨0, 0, 0⟩ ⟨1, 0, 0⟩ ⟨0, 1, 0⟩) ∨
      (onOneSide ⟨0, 0, 0⟩ ⟨1, 0, 0⟩ ⟨0, 1, 0⟩ ⟨0, 0, 1⟩ ⟨1, 0, 1⟩ ⟨0, 1, 1⟩ ∧
        clearOfPlane EPSILON ⟨0, 0, 0⟩ ⟨1, 0, 0⟩ ⟨0, 1, 0⟩ ⟨0, 0, 1⟩ ⟨1, 0, 1⟩ ⟨0, 1, 1⟩) := by
    right
    norm_num [onOneSide, clearOfPlane, signedDist, planeNormal, CROSS, SUB, DOT, EPSILON]
  ⟨h, triangle_intersect_separated EPSILON _ _ _ _ _ _ h⟩

/-- C2 as stated fails: the triangle `(0,0,0) (1,0,0) (0,1,0)` and its copy
lifted by half a millionth each lie strictly on one side of the other's
plane, yet with epsilon one millionth the result is true. -/
theorem separated_within_epsilon_collides :
    onOneSide ⟨0, 0, 1/2000000⟩ ⟨1, 0, 1/2000000⟩ ⟨0, 1, 1/2000000⟩
        ⟨0, 0, 0⟩ ⟨1, 0, 0⟩ ⟨0, 1, 0⟩ ∧
    onOneSide ⟨0, 0, 0⟩ ⟨1, 0, 0⟩ ⟨0, 1, 0⟩
        ⟨0, 0, 1/2000000⟩ ⟨1, 0, 1/2000000⟩ ⟨0, 1, 1/2000000⟩ ∧
    triangle_intersect (NoDivTriTriIsect EPSILON) ⟨0, 0, 0⟩ ⟨1, 0, 0⟩ ⟨0, 1, 0⟩
        ⟨0, 0, 1/2000000⟩ ⟨1, 0, 1/2000000⟩ ⟨0, 1, 1/2000000⟩ = true := by
  refine ⟨?_, ?_, ?_⟩
  · norm_num [onOneSide, signedDist, planeNormal, CROSS, SUB, DOT]
  · norm_num [onOneSide, signedDist, planeNormal, CROSS, SUB, DOT]
  · simp only [triangle_intersect, NoDivTriTriIsect, signedDist, planeNormal, CROSS, SUB, DOT]
    norm_num [clampEps, sameSide, maxIndex, FABS, NEWCOMPUTE_INTERVALS, coplanar_tri_tri,
      projAxes, overlap2D, EDGE_AGAINST_TRI_EDGES, EDGE_EDGE_TEST, POINT_IN_TRI, vec3.get,
      EPSILON, abs_lt]

/-- C3 as stated fails: a triangle in the plane `z = 0` and a triangle
collapsed to the point `(1,1,0)` inside it give true in one order and false
in the other. -/
theorem swap_changes_result :
    triangle_intersect (NoDivTriTriIsect EPSILON) ⟨0, 0, 0⟩ ⟨4, 0, 0⟩ ⟨0, 4, 0⟩
        ⟨1, 1, 0⟩ ⟨1, 1, 0⟩ ⟨1, 1, 0⟩ = true ∧
    triangle_intersect (NoDivTriTriIsect EPSILON) ⟨1, 1, 0⟩ ⟨1, 1, 0⟩ ⟨1, 1, 0⟩
        ⟨0, 0, 0⟩ ⟨4, 0, 0⟩ ⟨0, 4, 0⟩ = false := by
  constructor
  · simp only [triangle_intersect, NoDivTriTriIsect, signedDist, planeNormal, CROSS, SUB, DOT]
    norm_num [clampEps, sameSide, maxIndex, FABS, NEWCOMPUTE_INTERVALS, coplanar_tri_tri,
      projAxes, overlap2D, EDGE_AGAINST_TRI_EDGES, EDGE_EDGE_TEST, POINT_IN_TRI, vec3.get,
      EPSILON]
  · simp only [triangle_intersect, NoDivTriTriIsect, signedDist, planeNormal, CROSS, SUB, DOT]
    norm_num [clampEps, sameSide, maxIndex, FABS, NEWCOMPUTE_INTERVALS, coplanar_tri_tri,
      projAxes, overlap2D, EDGE_AGAINST_TRI_EDGES, EDGE_EDGE_TEST, POINT_IN_TRI, vec3.get,
      EPSILON]

/-! ### Swapping the operands -/

theorem maxIndex_CROSS_comm (a b : vec3) : maxIndex (CROSS a b) = maxIndex (CROSS b a) := by
  have hx : FABS (CROSS b a).x = FABS (CROSS a b).x := by
    simp only [CROSS, FABS]
    rw [← abs_neg]
    congr 1
    ring
  have hy : FABS (CROSS b a).y = FABS (CROSS a b).y := by
    simp only [CROSS, FABS]
    rw [← abs_neg]
    congr 1
    ring
  have hz : FABS (CROSS b a).z = FABS (CROSS a b).z := by
    simp only [CROSS, FABS]
    rw [← abs_neg]
    congr 1
    ring
  simp only [maxIndex, hx, hy, hz]

theorem NEWCOMPUTE_INTERVALS_eq_none_iff (VV0 VV1 VV2 D0 D1 D2 : ℚ) :
    NEWCOMPUTE_INTERVALS VV0 VV1 VV2 D0 D1 D2 (D0 * D1) (D0 * D2) = none ↔
      D0 = 0 ∧ D1 = 0 ∧ D2 = 0 := by
  unfold NEWCOMPUTE_INTERVALS
  constructor
  · intro h
    split_ifs at h with h1 h2 h3 h4 h5
    push_neg at h3 h4 h5
    exact ⟨h3.2, h4, h5⟩
  · rintro ⟨rfl, rfl, rfl⟩
    simp

theorem EDGE_EDGE_TEST_iff (i0 i1 : Nat) (Ax Ay : ℚ) (V0 U0 U1 : vec3) :
    EDGE_EDGE_TEST i0 i1 Ax Ay V0 U0 U1 = true ↔
      (0 < Ay * (U0.get i0 - U1.get i0) - Ax * (U0.get i1 - U1.get i1) ∧
        0 ≤ (U0.get i1 - U1.get i1) * (V0.get i0 - U0.get i0) -
              (U0.get i0 - U1.get i0) * (V0.get i1 - U0.get i1) ∧
        (U0.get i1 - U1.get i1) * (V0.get i0 - U0.get i0) -
              (U0.get i0 - U1.get i0) * (V0.get i1 - U0.get i1) ≤
          Ay * (U0.get i0 - U1.get i0) - Ax * (U0.get i1 - U1.get i1) ∧
        0 ≤ Ax * (V0.get i1 - U0.get i1) - Ay * (V0.get i0 - U0.get i0) ∧
        Ax * (V0.get i1 - U0.get i1) - Ay * (V0.get i0 - U0.get i0) ≤
          Ay * (U0.get i0 - U1.get i0) - Ax * (U0.get i1 - U1.get i1)) ∨
      (Ay * (U0.get i0 - U1.get i0) - Ax * (U0.get i1 - U1.get i1) < 0 ∧
        (U0.get i1 - U1.get i1) * (V0.get i0 - U0.get i0) -
              (U0.get i0 - U1.get i0) * (V0.get i1 - U0.get i1) ≤ 0 ∧
        Ay * (U0.get i0 - U1.get i0) - Ax * (U0.get i1 - U1.get i1) ≤
          (U0.get i1 - U1.get i1) * (V0.get i0 - U0.get i0) -
              (U0.get i0 - U1.get i0) * (V0.get i1 - U0.get i1) ∧
        Ax * (V0.get i1 - U0.get i1) - Ay * (V0.get i0 - U0.get i0) ≤ 0 ∧
        Ay * (U0.get i0 - U1.get i0) - Ax * (U0.get i1 - U1.get i1) ≤
          Ax * (V0.get i1 - U0.get i1) - Ay * (V0.get i0 - U0.get i0)) := by
  unfold EDGE_EDGE_TEST
  simp only []
  generalize Ay * (U0.get i0 - U1.get i0) - Ax * (U0.get i1 - U1.get i1) = f
  generalize (U0.get i1 - U1.get i1) * (V0.get i0 - U0.get i0) -
              (U0.get i0 - U1.get i0) * (V0.get i1 - U0.get i1) = d
  generalize Ax * (V0.get i1 - U0.get i1) - Ay * (V0.get i0 - U0.get i0) = e
  split_ifs with h1 h2
  · simp only [decide_eq_true_eq]
    constructor
    · rintro ⟨he1, he2⟩
      rcases h1 with ⟨_, hd1, hd2⟩ | ⟨hf, _, _⟩
      · exact Or.inl ⟨h2, hd1, hd2, he1, he2⟩
      · exact absurd h2 (not_lt.mpr hf.le)
    · rintro (⟨_, _, _, he1, he2⟩ | ⟨hf, _, _, _, _⟩)
      · exact ⟨he1, he2⟩
      · exact absurd h2 (not_lt.mpr hf.le)
  · simp only [decide_eq_true_eq]
    constructor
    · rintro ⟨he1, he2⟩
      rcases h1 with ⟨hf, _, _⟩ | ⟨hf, hd1, hd2⟩
      · exact absurd hf h2
      · exact Or.inr ⟨hf, hd1, hd2, he1, he2⟩
    · rintro (⟨hf, _, _, _, _⟩ | ⟨_, _, _, he1, he2⟩)
      · exact absurd hf h2
      · exact ⟨he1, he2⟩
  · constructor
    · intro h
      exact absurd h (by simp)
    · rintro (⟨hf, hd1, hd2, _, _⟩ | ⟨hf, hd1, hd2, _, _⟩)
      · exact absurd (Or.inl ⟨hf, hd1, hd2⟩) h1
      · exact absurd (Or.inr ⟨hf, hd1, hd2⟩) h1

/-- The segment test does not depend on which of the two edges comes first. -/
theorem EDGE_EDGE_TEST_comm (i0 i1 : Nat) (P0 P1 Q0 Q1 : vec3) :
    EDGE_EDGE_TEST i0 i1 (P1.get i0 - P0.get i0) (P1.get i1 - P0.get i1) P0 Q0 Q1 =
    EDGE_EDGE_TEST i0 i1 (Q1.get i0 - Q0.get i0) (Q1.get i1 - Q0.get i1) Q0 P0 P1 := by
  rw [Bool.eq_iff_iff, EDGE_EDGE_TEST_iff, EDGE_EDGE_TEST_iff]
  generalize P0.get i0 = p0x
  generalize P0.get i1 = p0y
  generalize P1.get i0 = p1x
  generalize P1.get i1 = p1y
  generalize Q0.get i0 = q0x
  generalize Q0.get i1 = q0y
  generalize Q1.get i0 = q1x
  generalize Q1.get i1 = q1y
  constructor
  · rintro (⟨h1, h2, h3, h4, h5⟩ | ⟨h1, h2, h3, h4, h5⟩)
    · right
      refine ⟨?_, ?_, ?_, ?_, ?_⟩ <;> linarith
    · left
      refine ⟨?_, ?_, ?_, ?_, ?_⟩ <;> linarith
  · rintro (⟨h1, h2, h3, h4, h5⟩ | ⟨h1, h2, h3, h4, h5⟩)
    · right
      refine ⟨?_, ?_, ?_, ?_, ?_⟩ <;> linarith
    · left
      refine ⟨?_, ?_, ?_, ?_, ?_⟩ <;> linarith

/-- The 2-D overlap test gives the same answer with the triangles exchanged,
as long as both calls use the same pair of axes. -/
theorem overlap2D_comm (i0 i1 : Nat) (V0 V1 V2 U0 U1 U2 : vec3) :
    overlap2D i0 i1 V0 V1 V2 U0 U1 U2 = overlap2D i0 i1 U0 U1 U2 V0 V1 V2 := by
  unfold overlap2D EDGE_AGAINST_TRI_EDGES
  simp only []
  rw [EDGE_EDGE_TEST_comm i0 i1 V0 V1 U0 U1, EDGE_EDGE_TEST_comm i0 i1 V0 V1 U1 U2,
    EDGE_EDGE_TEST_comm i0 i1 V0 V1 U2 U0, EDGE_EDGE_TEST_comm i0 i1 V1 V2 U0 U1,
    EDGE_EDGE_TEST_comm i0 i1 V1 V2 U1 U2, EDGE_EDGE_TEST_comm i0 i1 V1 V2 U2 U0,
    EDGE_EDGE_TEST_comm i0 i1 V2 V0 U0 U1, EDGE_EDGE_TEST_comm i0 i1 V2 V0 U1 U2,
    EDGE_EDGE_TEST_comm i0 i1 V2 V0 U2 U0]
  simp only [Bool.or_assoc, Bool.or_comm, Bool.or_left_comm]

theorem intervalsOverlap_comm (s1 s2 : ℚ × ℚ) :
    intervalsOverlap s1 s2 = intervalsOverlap s2 s1 := by
  unfold intervalsOverlap
  simp only [or_comm]

/-- The routine with its operands exchanged, whenever the 2-D fallback, if it
is reached, uses the same pair of axes for both normals. -/
theorem NoDivTriTriIsect_comm (eps : ℚ) (V0 V1 V2 U0 U1 U2 : vec3)
    (h : allOnPlane eps U0 U1 U2 V0 V1 V2 ∨ allOnPlane eps V0 V1 V2 U0 U1 U2 →
      projAxes (planeNormal V0 V1 V2) = projAxes (planeNormal U0 U1 U2)) :
    NoDivTriTriIsect eps V0 V1 V2 U0 U1 U2 = NoDivTriTriIsect eps U0 U1 U2 V0 V1 V2 := by
  by_cases r1 : sameSide (clampEps eps (signedDist V0 V1 V2 U0))
      (clampEps eps (signedDist V0 V1 V2 U1)) (clampEps eps (signedDist V0 V1 V2 U2)) = true
  · rw [NoDivTriTriIsect_reject_first eps _ _ _ _ _ _ r1,
      NoDivTriTriIsect_reject_second eps _ _ _ _ _ _ r1]
  by_cases r2 : sameSide (clampEps eps (signedDist U0 U1 U2 V0))
      (clampEps eps (signedDist U0 U1 U2 V1)) (clampEps eps (signedDist U0 U1 U2 V2)) = true
  · rw [NoDivTriTriIsect_reject_second eps _ _ _ _ _ _ r2,
      NoDivTriTriIsect_reject_first eps _ _ _ _ _ _ r2]
  have hcop : allOnPlane eps U0 U1 U2 V0 V1 V2 ∨ allOnPlane eps V0 V1 V2 U0 U1 U2 →
      coplanar_tri_tri (planeNormal V0 V1 V2) V0 V1 V2 U0 U1 U2 =
      coplanar_tri_tri (planeNormal U0 U1 U2) U0 U1 U2 V0 V1 V2 := by
    intro hc
    unfold coplanar_tri_tri
    rw [h hc, overlap2D_comm]
  unfold NoDivTriTriIsect
  simp only [r1, r2, Bool.false_eq_true, if_false]
  rw [maxIndex_CROSS_comm (planeNormal U0 U1 U2) (planeNormal V0 V1 V2)]
  generalize maxIndex (CROSS (planeNormal V0 V1 V2) (planeNormal U0 U1 U2)) = index
  cases hv : NEWCOMPUTE_INTERVALS (V0.get index) (V1.get index) (V2.get index)
      (clampEps eps (signedDist U0 U1 U2 V0)) (clampEps eps (signedDist U0 U1 U2 V1))
      (clampEps eps (signedDist U0 U1 U2 V2))
      (clampEps eps (signedDist U0 U1 U2 V0) * clampEps eps (signedDist U0 U1 U2 V1))
      (clampEps eps (signedDist U0 U1 U2 V0) * clampEps eps (signedDist U0 U1 U2 V2)) with
  | none =>
    have hc := hcop (Or.inl ((NEWCOMPUTE_INTERVALS_eq_none_iff _ _ _ _ _ _).mp hv))
    simp only [hc]
    split <;> rfl
  | some iv =>
    obtain ⟨a, b, c, x0, x1⟩ := iv
    cases hu : NEWCOMPUTE_INTERVALS (U0.get index) (U1.get index) (U2.get index)
        (clampEps eps (signedDist V0 V1 V2 U0)) (clampEps eps (signedDist V0 V1 V2 U1))
        (clampEps eps (signedDist V0 V1 V2 U2))
        (clampEps eps (signedDist V0 V1 V2 U0) * clampEps eps (signedDist V0 V1 V2 U1))
        (clampEps eps (signedDist V0 V1 V2 U0) * clampEps eps (signedDist V0 V1 V2 U2)) with
    | none =>
      have hc := hcop (Or.inr ((NEWCOMPUTE_INTERVALS_eq_none_iff _ _ _ _ _ _).mp hu))
      simp only [hc]
    | some iu =>
      obtain ⟨d, e, f, y0, y1⟩ := iu
      simp only []
      rw [intervalsOverlap_comm]
      congr 2 <;> ring

/-- C3, as the routine has it: exchanging the two triangles does not change
the result of `triangle_intersect` whenever the 2-D fallback is not reached
(neither triangle has all three clamped distances zero), and also when it is
reached with both triangles' normals selecting the same projection axes. -/
theorem triangle_intersect_comm (eps : ℚ) (a1 b1 c1 a2 b2 c2 : vec3)
    (h : allOnPlane eps a2 b2 c2 a1 b1 c1 ∨ allOnPlane eps a1 b1 c1 a2 b2 c2 →
      projAxes (planeNormal a1 b1 c1) = projAxes (planeNormal a2 b2 c2)) :
    triangle_intersect (NoDivTriTriIsect eps) a1 b1 c1 a2 b2 c2 =
    triangle_intersect (NoDivTriTriIsect eps) a2 b2 c2 a1 b1 c1 := by
  unfold triangle_intersect
  rw [NoDivTriTriIsect_comm eps a1 b1 c1 a2 b2 c2 h]

theorem triangle_intersect_comm_witness :
    (allOnPlane EPSILON ⟨0, 9/10, 0⟩ ⟨9/10, -9/10, 0⟩ ⟨-9/10, -9/10, 0⟩
        ⟨-1/2, 3/4, 0⟩ ⟨-1/5, 1/4, 0⟩ ⟨-4/5, 1/4, 0⟩ ∨
      allOnPlane EPSILON ⟨-1/2, 3/4, 0⟩ ⟨-1/5, 1/4, 0⟩ ⟨-4/5, 1/4, 0⟩
        ⟨0, 9/10, 0⟩ ⟨9/10, -9/10, 0⟩ ⟨-9/10, -9/10, 0⟩ →
      projAxes (planeNormal ⟨-1/2, 3/4, 0⟩ ⟨-1/5, 1/4, 0⟩ ⟨-4/5, 1/4, 0⟩) =
        projAxes (planeNormal ⟨0, 9/10, 0⟩ ⟨9/10, -9/10, 0⟩ ⟨-9/10, -9/10, 0⟩)) ∧
    triangle_intersect (NoDivTriTriIsect EPSILON)
        ⟨-1/2, 3/4, 0⟩ ⟨-1/5, 1/4, 0⟩ ⟨-4/5, 1/4, 0⟩
        ⟨0, 9/10, 0⟩ ⟨9/10, -9/10, 0⟩ ⟨-9/10, -9/10, 0⟩ =
      triangle_intersect (NoDivTriTriIsect EPSILON)
        ⟨0, 9/10, 0⟩ ⟨9/10, -9/10, 0⟩ ⟨-9/10, -9/10, 0⟩
        ⟨-1/2, 3/4, 0⟩ ⟨-1/5, 1/4, 0⟩ ⟨-4/5, 1/4, 0⟩ :=
  have h : allOnPlane EPSILON ⟨0, 9/10, 0⟩ ⟨9/10, -9/10, 0⟩ ⟨-9/10, -9/10, 0⟩
        ⟨-1/2, 3/4, 0⟩ ⟨-1/5, 1/4, 0⟩ ⟨-4/5, 1/4, 0⟩ ∨
      allOnPlane EPSILON ⟨-1/2, 3/4, 0⟩ ⟨-1/5, 1/4, 0⟩ ⟨-4/5, 1/4, 0⟩
        ⟨0, 9/10, 0⟩ ⟨9/10, -9/10, 0⟩ ⟨-9/10, -9/10, 0⟩ →
      projAxes (planeNormal ⟨-1/2, 3/4, 0⟩ ⟨-1/5, 1/4, 0⟩ ⟨-4/5, 1/4, 0⟩) =
        projAxes (planeNormal ⟨0, 9/10, 0⟩ ⟨9/10, -9/10, 0⟩ ⟨-9/10, -9/10, 0⟩) := by
    intro _
    norm_num [projAxes, planeNormal, CROSS, SUB, FABS]
  ⟨h, triangle_intersect_comm EPSILON _ _ _ _ _ _ h⟩

/-! ### Initialisation -/

theorem main_init_ignores_glewInit (env : Env) (r : Int) :
    main_init { env with glewInit := r } = main_init env := rfl

/-- Every failure that `main` checks for ends the process through `error`,
and without one the loop is entered. -/
theorem main_init_exits_iff (env : Env) :
    (∃ message, main_init env = error message) ↔ checkedFailure env := by
  unfold main_init checkedFailure
  constructor
  · intro ⟨m, hm⟩
    by_contra hc
    simp only [not_or, not_not] at hc
    obtain ⟨c1, c2, c3, c4, c5, c6, c7, c8, c9, c10, c11, c12, c13⟩ := hc
    simp [c1, c2, c3, c4, c5, c6, c7, c8, c9, c10, c11, c12, c13, error] at hm
  · intro hc
    by_cases h1 : env.SDL_Init ≠ 0
    · exact ⟨_, if_pos h1⟩
    rw [if_neg h1]
    by_cases h2 : env.window = 0 ∨ env.renderer = 0
    · exact ⟨_, if_pos h2⟩
    rw [if_neg h2]
    by_cases h3 : env.glContext = 0
    · exact ⟨_, if_pos h3⟩
    rw [if_neg h3]
    by_cases h4 : env.objectVao = 0
    · exact ⟨_, if_pos h4⟩
    rw [if_neg h4]
    by_cases h5 : env.objectPositionVbo = 0
    · exact ⟨_, if_pos h5⟩
    rw [if_neg h5]
    by_cases h6 : env.wallVao = 0
    · exact ⟨_, if_pos h6⟩
    rw [if_neg h6]
    by_cases h7 : env.wallPositionVbo = 0
    · exact ⟨_, if_pos h7⟩
    rw [if_neg h7]
    by_cases h8 : env.vertexCompiled = GL_FALSE
    · exact ⟨_, if_pos h8⟩
    rw [if_neg h8]
    by_cases h9 : env.fragmentCompiled = GL_FALSE
    · exact ⟨_, if_pos h9⟩
    rw [if_neg h9]
    by_cases h10 : env.shaderProgram = 0
    · exact ⟨_, if_pos h10⟩
    rw [if_neg h10]
    by_cases h11 : env.linked = GL_FALSE
    · exact ⟨_, if_pos h11⟩
    rw [if_neg h11]
    by_cases h12 : env.modelMatUniform = -1
    · exact ⟨_, if_pos h12⟩
    rw [if_neg h12]
    exfalso
    rcases hc with h | h | h | h | h | h | h | h | h | h | h | h | h
    · exact h1 h
    · exact h2 (Or.inl h)
    · exact h2 (Or.inr h)
    · exact h3 h
    · exact h4 h
    · exact h5 h
    · exact h6 h
    · exact h7 h
    · exact h8 h
    · exact h9 h
    · exact h10 h
    · exact h11 h
    · exact h12 h

/-- C6 fails at `glewInit`: when `glewInit` reports an error and every other
call succeeds, `main` prints nothing, does not leave, and enters the loop. -/
theorem glewInit_failure_enters_loop :
    envGlewFails.glewInit ≠ GLEW_OK ∧
    main_init envGlewFails = InitResult.entersLoop worldAllOk := by
  constructor
  · decide
  · rfl

/-! ### The game loop -/

theorem main_init_positions {env : Env} {world : World}
    (h : main_init env = InitResult.entersLoop world) :
    world.objectPositions = objectPositionsInit ∧ world.wallPositions = wallPositionsInit := by
  unfold main_init at h
  by_cases h1 : env.SDL_Init ≠ 0
  · rw [if_pos h1] at h; simp [error] at h
  rw [if_neg h1] at h
  by_cases h2 : env.window = 0 ∨ env.renderer = 0
  · rw [if_pos h2] at h; simp [error] at h
  rw [if_neg h2] at h
  by_cases h3 : env.glContext = 0
  · rw [if_pos h3] at h; simp [error] at h
  rw [if_neg h3] at h
  by_cases h4 : env.objectVao = 0
  · rw [if_pos h4] at h; simp [error] at h
  rw [if_neg h4] at h
  by_cases h5 : env.objectPositionVbo = 0
  · rw [if_pos h5] at h; simp [error] at h
  rw [if_neg h5] at h
  by_cases h6 : env.wallVao = 0
  · rw [if_pos h6] at h; simp [error] at h
  rw [if_neg h6] at h
  by_cases h7 : env.wallPositionVbo = 0
  · rw [if_pos h7] at h; simp [error] at h
  rw [if_neg h7] at h
  by_cases h8 : env.vertexCompiled = GL_FALSE
  · rw [if_pos h8] at h; simp [error] at h
  rw [if_neg h8] at h
  by_cases h9 : env.fragmentCompiled = GL_FALSE
  · rw [if_pos h9] at h; simp [error] at h
  rw [if_neg h9] at h
  by_cases h10 : env.shaderProgram = 0
  · rw [if_pos h10] at h; simp [error] at h
  rw [if_neg h10] at h
  by_cases h11 : env.linked = GL_FALSE
  · rw [if_pos h11] at h; simp [error] at h
  rw [if_neg h11] at h
  by_cases h12 : env.modelMatUniform = -1
  · rw [if_pos h12] at h; simp [error] at h
  rw [if_neg h12] at h
  injection h with h
  subst h
  exact ⟨rfl, rfl⟩

theorem update_built (isect : vec3 → vec3 → vec3 → vec3 → vec3 → vec3 → Int) (world : World)
    (hobj : world.objectPositions = objectPositionsInit)
    (hwall : world.wallPositions = wallPositionsInit) :
    ∃ world1 title, update isect world = Except.ok (world1, [builtCall, Event.SDL_SetWindowTitle title]) ∧
      world1.objectPositions = objectPositionsInit ∧ world1.wallPositions = wallPositionsInit := by
  have h0 : world.objectPositions[0]? = some ⟨-1/2, 3/4, 0⟩ := by
    simp [hobj, objectPositionsInit, INITIAL_COLLIDING]
  have h1 : world.objectPositions[1]? = some ⟨-1/5, 1/4, 0⟩ := by
    simp [hobj, objectPositionsInit, INITIAL_COLLIDING]
  have h2 : world.objectPositions[2]? = some ⟨-4/5, 1/4, 0⟩ := by
    simp [hobj, objectPositionsInit, INITIAL_COLLIDING]
  have k0 : world.wallPositions[0]? = some ⟨0, 9/10, 0⟩ := by
    simp [hwall, wallPositionsInit]
  have k1 : world.wallPositions[1]? = some ⟨9/10, -9/10, 0⟩ := by
    simp [hwall, wallPositionsInit]
  have k2 : world.wallPositions[2]? = some ⟨-9/10, -9/10, 0⟩ := by
    simp [hwall, wallPositionsInit]
  exact ⟨_, _, update_of_vertices isect world h0 h1 h2 k0 k1 k2, hobj, hwall⟩

theorem update_keeps_positions (isect : vec3 → vec3 → vec3 → vec3 → vec3 → vec3 → Int)
    (world world1 : World) (trace : List Event)
    (h : update isect world = Except.ok (world1, trace)) :
    world1.objectPositions = world.objectPositions ∧
    world1.wallPositions = world.wallPositions := by
  unfold update at h
  simp only [] at h
  repeat' split at h
  all_goals first
    | (injection h with h
       injection h with hw _
       subst hw
       exact ⟨rfl, rfl⟩)
    | exact absurd h (by simp)

theorem intersectCalls_frame (title : String) (world : World) (later : List Event) :
    intersectCalls
      (([builtCall, Event.SDL_SetWindowTitle title] ++ (display world).2 ++
        [Event.SDL_GL_SwapWindow]) ++ later) = builtCall :: intersectCalls later := by
  simp [intersectCalls, display, builtCall]

/-- The loop started on a World holding the built program's vertices runs
every frame without an exception, keeps the vertices, and calls
`triangle_intersect` once per frame with them. -/
theorem mainLoop_built (isect : vec3 → vec3 → vec3 → vec3 → vec3 → vec3 → Int)
    (batches : List (List SDL_EventType)) :
    ∀ world : World, world.objectPositions = objectPositionsInit →
      world.wallPositions = wallPositionsInit →
      ∃ world1 trace left, mainLoop isect batches world = Except.ok (world1, trace, left) ∧
        world1.objectPositions = objectPositionsInit ∧
        world1.wallPositions = wallPositionsInit ∧
        intersectCalls trace = List.replicate (framesRun batches) builtCall := by
  induction batches with
  | nil =>
    intro world hobj hwall
    exact ⟨world, [], false, rfl, hobj, hwall, rfl⟩
  | cons batch later ih =>
    intro world hobj hwall
    obtain ⟨w1, title, hu, hobj1, hwall1⟩ := update_built isect world hobj hwall
    unfold mainLoop framesRun
    simp only [hu]
    by_cases hq : batch.any (fun e => decide (e = SDL_EventType.SDL_QUIT)) = true
    · simp only [hq, if_true]
      refine ⟨_, _, _, rfl, hobj1, hwall1, ?_⟩
      have := intersectCalls_frame title w1 []
      simpa using this
    · simp only [hq, Bool.false_eq_true, if_false]
      obtain ⟨w2, tr2, left, hl, hobj2, hwall2, hcalls⟩ := ih (display w1).1 hobj1 hwall1
      simp only [hl]
      refine ⟨_, _, _, rfl, hobj2, hwall2, ?_⟩
      rw [intersectCalls_frame, hcalls, List.replicate_succ]

/-- C8: in the program as built (`INITIAL_COLLIDING` defined), once `main`
reaches the loop every frame's `update` passes to `triangle_intersect` the
vertices `(-0.5,0.75,0) (-0.2,0.25,0) (-0.8,0.25,0)` and
`(0,0.9,0) (0.9,-0.9,0) (-0.9,-0.9,0)`, in that order: the calls in the trace
are that one call, once per frame run. -/
theorem frames_pass_built_vertices (isect : vec3 → vec3 → vec3 → vec3 → vec3 → vec3 → Int)
    (env : Env) (world : World) (batches : List (List SDL_EventType))
    (h : main_init env = InitResult.entersLoop world) :
    ∃ world1 trace left, mainLoop isect batches world = Except.ok (world1, trace, left) ∧
      intersectCalls trace =
        List.replicate (framesRun batches)
          (Event.triangle_intersect ⟨-1/2, 3/4, 0⟩ ⟨-1/5, 1/4, 0⟩ ⟨-4/5, 1/4, 0⟩
            ⟨0, 9/10, 0⟩ ⟨9/10, -9/10, 0⟩ ⟨-9/10, -9/10, 0⟩) := by
  obtain ⟨hobj, hwall⟩ := main_init_positions h
  obtain ⟨w1, tr, left, hl, _, _, hc⟩ := mainLoop_built isect batches world hobj hwall
  exact ⟨w1, tr, left, hl, hc⟩

theorem frames_pass_built_vertices_witness :
    main_init envAllOk = InitResult.entersLoop worldAllOk ∧
    ∃ world1 trace left,
      mainLoop (NoDivTriTriIsect EPSILON)
        [[SDL_EventType.other], [], [SDL_EventType.SDL_QUIT]] worldAllOk =
          Except.ok (world1, trace, left) ∧
      intersectCalls trace =
        List.replicate (framesRun [[SDL_EventType.other], [], [SDL_EventType.SDL_QUIT]])
          (Event.triangle_intersect ⟨-1/2, 3/4, 0⟩ ⟨-1/5, 1/4, 0⟩ ⟨-4/5, 1/4, 0⟩
            ⟨0, 9/10, 0⟩ ⟨9/10, -9/10, 0⟩ ⟨-9/10, -9/10, 0⟩) :=
  ⟨rfl, frames_pass_built_vertices (NoDivTriTriIsect EPSILON) envAllOk worldAllOk
    [[SDL_EventType.other], [], [SDL_EventType.SDL_QUIT]] rfl⟩

/-- C10: in every World reachable from `main`'s initialisation the two
vectors hold exactly 3 vertices; `update` and `display` leave them as they
are; so the loop runs any number of frames without `.at` throwing. -/
theorem positions_stay_three (isect : vec3 → vec3 → vec3 → vec3 → vec3 → vec3 → Int)
    (env : Env) (world : World) (batches : List (List SDL_EventType))
    (h : main_init env = InitResult.entersLoop world) :
    world.objectPositions.length = 3 ∧ world.wallPositions.length = 3 ∧
    (∀ w w1 trace, update isect w = Except.ok (w1, trace) →
      w1.objectPositions = w.objectPositions ∧ w1.wallPositions = w.wallPositions) ∧
    (∀ w, (display w).1 = w) ∧
    ∃ world1 trace left, mainLoop isect batches world = Except.ok (world1, trace, left) ∧
      world1.objectPositions = world.objectPositions ∧
      world1.wallPositions = world.wallPositions ∧
      world1.objectPositions.length = 3 ∧ world1.wallPositions.length = 3 := by
  obtain ⟨hobj, hwall⟩ := main_init_positions h
  obtain ⟨w1, tr, left, hl, hobj1, hwall1, _⟩ := mainLoop_built isect batches world hobj hwall
  have l1 : objectPositionsInit.length = 3 := by
    simp [objectPositionsInit, INITIAL_COLLIDING]
  have l2 : wallPositionsInit.length = 3 := by
    simp [wallPositionsInit]
  refine ⟨by rw [hobj, l1], by rw [hwall, l2], update_keeps_positions isect, fun _ => rfl,
    w1, tr, left, hl, by rw [hobj1, hobj], by rw [hwall1, hwall], by rw [hobj1, l1],
    by rw [hwall1, l2]⟩

theorem positions_stay_three_witness :
    main_init envAllOk = InitResult.entersLoop worldAllOk ∧
    worldAllOk.objectPositions.length = 3 ∧ worldAllOk.wallPositions.length = 3 ∧
    (∀ w w1 trace, update (NoDivTriTriIsect EPSILON) w = Except.ok (w1, trace) →
      w1.objectPositions = w.objectPositions ∧ w1.wallPositions = w.wallPositions) ∧
    (∀ w, (display w).1 = w) ∧
    ∃ world1 trace left,
      mainLoop (NoDivTriTriIsect EPSILON) [[], [SDL_EventType.SDL_QUIT]] worldAllOk =
        Except.ok (world1, trace, left) ∧
      world1.objectPositions = worldAllOk.objectPositions ∧
      world1.wallPositions = worldAllOk.wallPositions ∧
      world1.objectPositions.length = 3 ∧ world1.wallPositions.length = 3 :=
  ⟨rfl, positions_stay_three (NoDivTriTriIsect EPSILON) envAllOk worldAllOk
    [[], [SDL_EventType.SDL_QUIT]] rfl⟩

end Collision

/-! ## Theorems about the physics program -/

namespace Physics

theorem simulationLoop_from {W : Type} (B : Bullet W) (k : Nat) :
    ∀ i, i + k = 300 →
      simulationLoop B i (afterSteps B i) (loggedSteps B i) =
        (afterSteps B 300, loggedSteps B 300) := by
  induction k with
  | zero =>
    intro i hi
    have : i = 300 := by omega
    subst this
    rw [simulationLoop]
    simp
  | succ k ih =>
    intro i hi
    have hlt : i < 300 := by omega
    rw [simulationLoop]
    simp only [hlt, if_true]
    exact ih (i + 1) (by omega)

theorem stepCalls_loggedSteps {W : Type} (B : Bullet W) (n : Nat) :
    stepCalls (loggedSteps B n) = n := by
  induction n with
  | zero => rfl
  | succ n ih =>
    simp only [loggedSteps, stepCalls, List.countP_append] at ih ⊢
    rw [ih]
    simp [List.countP_cons]

theorem printed_loggedSteps {W : Type} (B : Bullet W) (n : Nat) :
    printed (loggedSteps B n) =
      (List.range n).map (fun i => "sphere height: " ++ B.sphereY (afterSteps B (i + 1))) := by
  induction n with
  | zero => rfl
  | succ n ih =>
    simp only [loggedSteps, printed, List.filterMap_append] at ih ⊢
    rw [ih, List.range_succ, List.map_append]
    simp [List.filterMap_cons]

/-- C7: `main` of the physics program makes exactly 300 calls of
`stepSimulation(1/60, 10)`, and after the i-th call, before the next one,
prints one line "sphere height: " followed by the Y coordinate as it is
after i steps; the output is those 300 lines in step order. -/
theorem main_prints_height_each_step {W : Type} (B : Bullet W) :
    (main B).2 = loggedSteps B 300 ∧
    stepCalls (main B).2 = 300 ∧
    printed (main B).2 =
      (List.range 300).map (fun i => "sphere height: " ++ B.sphereY (afterSteps B (i + 1))) ∧
    (printed (main B).2).length = 300 := by
  have h : main B = (afterSteps B 300, loggedSteps B 300) :=
    simulationLoop_from B 300 0 (by omega)
  rw [h]
  refine ⟨rfl, stepCalls_loggedSteps B 300, printed_loggedSteps B 300, ?_⟩
  rw [printed_loggedSteps]
  simp

end Physics
